import Mathlib

/-!
Verification of the smart-attendance-system analytics pipeline.

Shallow embedding of the four ML stage modules
(`model1_trend_analysis.py`, `model3_consistency_analysis.py`,
`model4_attentiveness_analysis.py`, `model2_risk_prediction.py`).

Conventions used throughout:
* Python numbers are embedded as exact rationals (`ℚ`); IEEE-754 float
  rounding is not modelled.
* `np.std` (population standard deviation) cannot stay inside `ℚ`, so the
  final square root is abstracted: functions that need it take an explicit
  `sq : ℚ → ℚ` parameter applied to the (exactly computed) population
  variance.  Where the source compares a standard deviation against a
  constant (`std > 0.8`) the embedding compares the variance against the
  squared constant (`var > 0.64`), an exact rewrite since both sides are
  nonnegative.
* Python dicts with variably present keys become structures with `Option`
  fields; a field is `none` exactly when the source leaves the key unset.
* `round(x, k)` display rounding of metric values is omitted; all decision
  logic in the source operates on the unrounded values.
* Python's stable `sorted` is embedded with `List.insertionSort`
  (stable, inserts earlier elements in front of later equal keys).
* `session_date` ISO strings (whose lexicographic order coincides with
  chronological order) are embedded as natural-number day indices; only
  their relative order and equality are consumed by the source.
-/

/-- Arithmetic mean of a list of rationals (`np.mean`); `0` on `[]`
(division by zero in `ℚ`), matching the source's guarded uses. -/
def meanQ (l : List ℚ) : ℚ := l.sum / (l.length : ℚ)

/-- Population variance of a list of rationals (the square of `np.std`). -/
def popVarQ (l : List ℚ) : ℚ := meanQ (l.map (fun x => (x - meanQ l) ^ 2))

/-- Rank of the four confidence labels, for monotonicity statements. -/
def confRank (c : String) : ℕ :=
  if c = "none" then 0
  else if c = "low" then 1
  else if c = "medium" then 2
  else 3

namespace Consistency

/-- Attendance record as consumed by `model3_consistency_analysis.py`:
`status`, `session_date`, and `reason_type` (absent with a non-empty
reason ⇒ excused). -/
structure CRecord where
  sessionDate : ℕ
  status : String
  reasonType : Option String
deriving Repr, DecidableEq

/-- `sorted(records, key=session_date, reverse=False)` (model3 lines 37-41). -/
def sortChron (l : List CRecord) : List CRecord :=
  List.insertionSort (fun a b => a.sessionDate ≤ b.sessionDate) l

/-- The consecutive-absence streak loop of model3 lines 133-147, carrying
the list of completed streak lengths (only streaks of 2 or more are
recorded) and the length of the current run of absences. -/
def streaksGo : List Bool → List ℕ → ℕ → List ℕ
  | [], acc, cur => if 1 < cur then acc ++ [cur] else acc
  | b :: rest, acc, cur =>
    if b then streaksGo rest acc (cur + 1)
    else streaksGo rest (if 1 < cur then acc ++ [cur] else acc) 0

/-- Lengths of the maximal runs of consecutive absences of length ≥ 2. -/
def consecutiveStreaks (flags : List Bool) : List ℕ := streaksGo flags [] 0

/-- `max([len(s) for s in streaks]) if streaks else 1` (model3 line 150). -/
def maxAbsenceStreakOf (streaks : List ℕ) : ℕ :=
  match streaks with
  | [] => 1
  | _ => streaks.foldl Nat.max 0

/-- `get_confidence_level` (model3 lines 217-226). -/
def get_confidence_level (totalSessions : ℕ) : String :=
  if totalSessions < 5 then "none"
  else if totalSessions < 10 then "low"
  else if totalSessions < 15 then "medium"
  else "high"

/-- `calculate_discipline_score` (model3 lines 229-270).  The
`attendance_pct` argument is unused in the source body as well. -/
def calculate_discipline_score (clustering excusedPct : ℚ) (incidents maxStreak : ℕ)
    (singleAbs : ℤ) (_attendancePct : ℚ) : ℕ :=
  let s1 : ℕ := if 70 ≤ clustering then 30 else if 40 ≤ clustering then 15 else 0
  let s2 : ℕ := if 80 ≤ excusedPct then 25 else if 50 ≤ excusedPct then 15
    else if 30 ≤ excusedPct then 5 else 0
  let s3 : ℕ := if incidents = 0 then 20 else if incidents ≤ 2 then 15
    else if incidents ≤ 4 then 5 else 0
  let s4 : ℕ := if maxStreak ≤ 3 then 15 else if maxStreak ≤ 5 then 10
    else if maxStreak ≤ 7 then 5 else 0
  let s5 : ℕ := if singleAbs = 0 then 10 else if singleAbs ≤ 2 then 5 else 0
  min 100 (s1 + s2 + s3 + s4 + s5)

/-- `classify_consistency` (model3 lines 273-288).  The `attendance_pct`
argument is unused in the source body as well. -/
def classify_consistency (clustering excusedPct : ℚ) (incidents maxStreak : ℕ)
    (singleAbs : ℤ) (_attendancePct : ℚ) : String :=
  if 70 ≤ clustering ∧ 60 ≤ excusedPct ∧ incidents ≤ 2 ∧ maxStreak ≤ 7 ∧ singleAbs ≤ 2 then
    "regular"
  else if clustering < 30 ∨ excusedPct < 30 ∨ 5 < singleAbs ∨
      (10 < maxStreak ∧ excusedPct < 50) then
    "highly_irregular"
  else
    "moderately_irregular"

/-- `sum(1 for r in l if status == 'present')`. -/
def presentCount3 (l : List CRecord) : ℕ := (l.filter (fun r => r.status == "present")).length

/-- `[r for r in l if status == 'absent']`. -/
def absentRecords3 (l : List CRecord) : List CRecord := l.filter (fun r => r.status == "absent")

/-- Excused absences: `reason_type is not None and reason_type != ''`. -/
def excusedCount3 (l : List CRecord) : ℕ :=
  ((absentRecords3 l).filter (fun r => r.reasonType != none && r.reasonType != some "")).length

/-- Per-record absence indicator over a record list. -/
def absentFlags (l : List CRecord) : List Bool := l.map (fun r => r.status == "absent")

/-- Completed consecutive-absence streak lengths of a record list. -/
def streaks3 (l : List CRecord) : List ℕ := consecutiveStreaks (absentFlags l)

/-- `overall_percentage` (model3 line 103). -/
def overallPct3 (l : List CRecord) : ℚ := (presentCount3 l : ℚ) / (l.length : ℚ) * 100

/-- `excused_percentage` (model3 line 127). -/
def excusedPct3 (l : List CRecord) : ℚ :=
  (excusedCount3 l : ℚ) / ((absentRecords3 l).length : ℚ) * 100

/-- `single_absences = absent_count - absences_in_streaks` (model3 line 157). -/
def singleAbs3 (l : List CRecord) : ℤ :=
  ((absentRecords3 l).length : ℤ) - ((streaks3 l).sum : ℤ)

/-- `clustering_score = absences_in_streaks / absent_count * 100` (model3 line 164). -/
def clusteringScore3 (l : List CRecord) : ℚ :=
  ((streaks3 l).sum : ℚ) / ((absentRecords3 l).length : ℚ) * 100

/-- Output of `calculate_consistency_analysis`.  The `metrics` keys that the
source only sets on some paths are `Option` fields (`none` ⇔ key unset);
`notes`/`warnings`/`recommendations`/`message` strings are display-only and
not part of this embedding. -/
structure ConsistencyResult where
  consistency : String
  confidence : String
  totalSessions : ℕ
  overallPercentage : ℚ
  clusteringScore : Option ℚ := none
  consecutiveAbsenceIncidents : Option ℕ := none
  maxAbsenceStreak : Option ℕ := none
  singleAbsences : Option ℤ := none
  excusedPercentage : Option ℚ := none
  disciplineScore : Option ℕ := none
deriving Repr, DecidableEq

/-- `calculate_consistency_analysis` (model3 lines 25-214): sort
chronologically, short-circuit on 0 or fewer than 5 sessions and on perfect
attendance, otherwise compute the clustering metrics and classify. -/
def calculate_consistency_analysis (records : List CRecord) : ConsistencyResult :=
  let s := sortChron records
  if s.length = 0 then
    { consistency := "no_data", confidence := "none",
      totalSessions := 0, overallPercentage := 0 }
  else if s.length < 5 then
    { consistency := "regular", confidence := "none",
      totalSessions := s.length, overallPercentage := overallPct3 s }
  else if (absentRecords3 s).length = 0 then
    { consistency := "regular", confidence := get_confidence_level s.length,
      totalSessions := s.length, overallPercentage := overallPct3 s,
      clusteringScore := some 0, consecutiveAbsenceIncidents := some 0,
      maxAbsenceStreak := some 0, singleAbsences := some 0,
      excusedPercentage := some 0, disciplineScore := some 100 }
  else
    { consistency := classify_consistency (clusteringScore3 s) (excusedPct3 s)
        (streaks3 s).length (maxAbsenceStreakOf (streaks3 s)) (singleAbs3 s) (overallPct3 s),
      confidence := get_confidence_level s.length,
      totalSessions := s.length, overallPercentage := overallPct3 s,
      clusteringScore := some (clusteringScore3 s),
      consecutiveAbsenceIncidents := some (streaks3 s).length,
      maxAbsenceStreak := some (maxAbsenceStreakOf (streaks3 s)),
      singleAbsences := some (singleAbs3 s),
      excusedPercentage := some (excusedPct3 s),
      disciplineScore := some (calculate_discipline_score (clusteringScore3 s) (excusedPct3 s)
        (streaks3 s).length (maxAbsenceStreakOf (streaks3 s)) (singleAbs3 s) (overallPct3 s)) }

end Consistency

namespace Consistency

theorem sortChron_length (l : List CRecord) : (sortChron l).length = l.length :=
  List.length_insertionSort _ l

theorem sortChron_perm (l : List CRecord) : (sortChron l).Perm l :=
  List.perm_insertionSort _ l

theorem absentRecords3_sortChron_length (records : List CRecord) :
    (absentRecords3 (sortChron records)).length =
      records.countP (fun r => r.status == "absent") := by
  rw [absentRecords3, ← List.countP_eq_length_filter]
  exact (sortChron_perm records).countP_eq _

theorem classify_consistency_cases (c e : ℚ) (i m : ℕ) (sg : ℤ) (o : ℚ) :
    (classify_consistency c e i m sg o = "regular" ↔
      (70 ≤ c ∧ 60 ≤ e ∧ i ≤ 2 ∧ m ≤ 7 ∧ sg ≤ 2)) ∧
    (classify_consistency c e i m sg o = "highly_irregular" ↔
      (¬(70 ≤ c ∧ 60 ≤ e ∧ i ≤ 2 ∧ m ≤ 7 ∧ sg ≤ 2) ∧
        (c < 30 ∨ e < 30 ∨ 5 < sg ∨ (10 < m ∧ e < 50)))) ∧
    (classify_consistency c e i m sg o = "moderately_irregular" ↔
      (¬(70 ≤ c ∧ 60 ≤ e ∧ i ≤ 2 ∧ m ≤ 7 ∧ sg ≤ 2) ∧
        ¬(c < 30 ∨ e < 30 ∨ 5 < sg ∨ (10 < m ∧ e < 50)))) := by
  unfold classify_consistency
  split_ifs with h1 h2 <;> simp_all

end Consistency

namespace Consistency

theorem calculate_full (records : List CRecord) (h5 : 5 ≤ records.length)
    (habs : 1 ≤ records.countP (fun r => r.status == "absent")) :
    calculate_consistency_analysis records =
      { consistency := classify_consistency (clusteringScore3 (sortChron records))
          (excusedPct3 (sortChron records)) (streaks3 (sortChron records)).length
          (maxAbsenceStreakOf (streaks3 (sortChron records))) (singleAbs3 (sortChron records))
          (overallPct3 (sortChron records)),
        confidence := get_confidence_level (sortChron records).length,
        totalSessions := (sortChron records).length,
        overallPercentage := overallPct3 (sortChron records),
        clusteringScore := some (clusteringScore3 (sortChron records)),
        consecutiveAbsenceIncidents := some (streaks3 (sortChron records)).length,
        maxAbsenceStreak := some (maxAbsenceStreakOf (streaks3 (sortChron records))),
        singleAbsences := some (singleAbs3 (sortChron records)),
        excusedPercentage := some (excusedPct3 (sortChron records)),
        disciplineScore := some (calculate_discipline_score (clusteringScore3 (sortChron records))
          (excusedPct3 (sortChron records)) (streaks3 (sortChron records)).length
          (maxAbsenceStreakOf (streaks3 (sortChron records))) (singleAbs3 (sortChron records))
          (overallPct3 (sortChron records))) } := by
  have hlen : (sortChron records).length = records.length := sortChron_length records
  have h0 : ¬ (sortChron records).length = 0 := by omega
  have h1 : ¬ (sortChron records).length < 5 := by omega
  have h2 : ¬ (absentRecords3 (sortChron records)).length = 0 := by
    rw [absentRecords3_sortChron_length]; omega
  unfold calculate_consistency_analysis
  rw [if_neg h0, if_neg h1, if_neg h2]

theorem calculate_perfect (records : List CRecord) (h5 : 5 ≤ records.length)
    (habs : records.countP (fun r => r.status == "absent") = 0) :
    calculate_consistency_analysis records =
      { consistency := "regular", confidence := get_confidence_level (sortChron records).length,
        totalSessions := (sortChron records).length,
        overallPercentage := overallPct3 (sortChron records),
        clusteringScore := some 0, consecutiveAbsenceIncidents := some 0,
        maxAbsenceStreak := some 0, singleAbsences := some 0,
        excusedPercentage := some 0, disciplineScore := some 100 } := by
  have hlen : (sortChron records).length = records.length := sortChron_length records
  have h0 : ¬ (sortChron records).length = 0 := by omega
  have h1 : ¬ (sortChron records).length < 5 := by omega
  have h2 : (absentRecords3 (sortChron records)).length = 0 := by
    rw [absentRecords3_sortChron_length]; omega
  unfold calculate_consistency_analysis
  rw [if_neg h0, if_neg h1, if_pos h2]

end Consistency

namespace Consistency

theorem streaksGo_mem_two_le : ∀ (flags : List Bool) (acc : List ℕ) (cur : ℕ),
    (∀ x ∈ acc, 2 ≤ x) → ∀ x ∈ streaksGo flags acc cur, 2 ≤ x := by
  intro flags
  induction flags with
  | nil =>
    intro acc cur hacc x hx
    unfold streaksGo at hx
    split at hx
    · rcases List.mem_append.1 hx with h | h
      · exact hacc x h
      · simp at h; omega
    · exact hacc x hx
  | cons b rest ih =>
    intro acc cur hacc x hx
    unfold streaksGo at hx
    split at hx
    · exact ih acc (cur + 1) hacc x hx
    · refine ih _ 0 ?_ x hx
      intro y hy
      split at hy
      · rcases List.mem_append.1 hy with h | h
        · exact hacc y h
        · simp at h; omega
      · exact hacc y hy

theorem le_foldl_max : ∀ (l : List ℕ) (a : ℕ), a ≤ l.foldl Nat.max a := by
  intro l
  induction l with
  | nil => intro a; exact Nat.le_refl a
  | cons x t ih =>
    intro a
    calc a ≤ Nat.max a x := Nat.le_max_left a x
    _ ≤ t.foldl Nat.max (Nat.max a x) := ih _

theorem maxAbsenceStreakOf_ne_zero (streaks : List ℕ)
    (h : ∀ x ∈ streaks, 2 ≤ x) : maxAbsenceStreakOf streaks ≠ 0 := by
  match streaks with
  | [] => simp [maxAbsenceStreakOf]
  | x :: t =>
    have h2 : 2 ≤ x := h x (by simp)
    have : x ≤ (x :: t).foldl Nat.max 0 := by
      have h3 := le_foldl_max t (Nat.max 0 x)
      have h4 : x ≤ Nat.max 0 x := Nat.le_max_right 0 x
      simp only [List.foldl_cons]
      omega
    simp only [maxAbsenceStreakOf]
    omega

theorem streaksGo_of_isolated : ∀ (flags : List Bool) (acc : List ℕ) (cur : ℕ),
    cur ≤ 1 → (cur = 1 → flags.head? ≠ some true) →
    List.Chain' (fun a b => ¬(a = true ∧ b = true)) flags →
    streaksGo flags acc cur = acc := by
  intro flags
  induction flags with
  | nil =>
    intro acc cur h1 _ _
    unfold streaksGo
    rw [if_neg (by omega)]
  | cons b rest ih =>
    intro acc cur h1 h2 hchain
    cases b
    · unfold streaksGo
      rw [if_neg (by simp)]
      rw [if_neg (by omega)]
      exact ih acc 0 (by omega) (by omega) hchain.tail
    · have hcur : cur = 0 := by
        by_contra hc
        have : cur = 1 := by omega
        exact h2 this rfl
      subst hcur
      unfold streaksGo
      rw [if_pos rfl]
      refine ih acc 1 (by omega) ?_ hchain.tail
      intro _ hhd
      rcases rest with _ | ⟨c, rest'⟩
      · simp at hhd
      · simp only [List.head?_cons, Option.some.injEq] at hhd
        subst hhd
        have := (List.chain'_cons'.1 hchain).1 true (by simp)
        simp at this

theorem streaks3_eq_nil_of_isolated (l : List CRecord)
    (h : List.Chain' (fun a b => ¬(a.status = "absent" ∧ b.status = "absent")) l) :
    streaks3 l = [] := by
  unfold streaks3 consecutiveStreaks absentFlags
  refine streaksGo_of_isolated _ [] 0 (by omega) (by omega) ?_
  rw [List.chain'_map]
  refine h.imp ?_
  intro a b hab
  simp only [beq_iff_eq]
  tauto

end Consistency

namespace Consistency

/-- The ordered decision tree of §4.2, phrased over the metrics the result
itself reports. -/
def decisionTreeOK (r : ConsistencyResult) : Prop :=
  (r.consistency = "regular" ↔
    (70 ≤ r.clusteringScore.getD 0 ∧ 60 ≤ r.excusedPercentage.getD 0 ∧
      r.consecutiveAbsenceIncidents.getD 0 ≤ 2 ∧ r.maxAbsenceStreak.getD 0 ≤ 7 ∧
      r.singleAbsences.getD 0 ≤ 2)) ∧
  (r.consistency = "highly_irregular" ↔
    (¬(70 ≤ r.clusteringScore.getD 0 ∧ 60 ≤ r.excusedPercentage.getD 0 ∧
        r.consecutiveAbsenceIncidents.getD 0 ≤ 2 ∧ r.maxAbsenceStreak.getD 0 ≤ 7 ∧
        r.singleAbsences.getD 0 ≤ 2) ∧
      (r.clusteringScore.getD 0 < 30 ∨ r.excusedPercentage.getD 0 < 30 ∨
        5 < r.singleAbsences.getD 0 ∨
        (10 < r.maxAbsenceStreak.getD 0 ∧ r.excusedPercentage.getD 0 < 50)))) ∧
  (r.consistency = "moderately_irregular" ↔
    (¬(70 ≤ r.clusteringScore.getD 0 ∧ 60 ≤ r.excusedPercentage.getD 0 ∧
        r.consecutiveAbsenceIncidents.getD 0 ≤ 2 ∧ r.maxAbsenceStreak.getD 0 ≤ 7 ∧
        r.singleAbsences.getD 0 ≤ 2) ∧
      ¬(r.clusteringScore.getD 0 < 30 ∨ r.excusedPercentage.getD 0 < 30 ∨
        5 < r.singleAbsences.getD 0 ∨
        (10 < r.maxAbsenceStreak.getD 0 ∧ r.excusedPercentage.getD 0 < 50))))

end Consistency

/-- C5: for every history with at least 5 sessions and at least one absence,
the ConsistencyAnalyzer classification follows the ordered decision tree of
§4.2 over the reported metrics: `regular` iff clustering ≥ 70 and excused% ≥ 60
and incidents ≤ 2 and max streak ≤ 7 and single absences ≤ 2; failing that,
`highly_irregular` iff clustering < 30 or excused% < 30 or single absences > 5
or (max streak > 10 and excused% < 50); otherwise `moderately_irregular`. -/
theorem consistency_decision_tree (records : List Consistency.CRecord)
    (h5 : 5 ≤ records.length)
    (habs : 1 ≤ records.countP (fun r => r.status == "absent")) :
    Consistency.decisionTreeOK (Consistency.calculate_consistency_analysis records) := by
  rw [Consistency.calculate_full records h5 habs]
  unfold Consistency.decisionTreeOK
  simp only [Option.getD_some]
  exact Consistency.classify_consistency_cases _ _ _ _ _ _

/-- Witness for `consistency_decision_tree` at a concrete 6-session history
with two isolated absences. -/
theorem consistency_decision_tree_witness :
    5 ≤ ([⟨1, "present", none⟩, ⟨2, "present", none⟩, ⟨3, "absent", none⟩,
      ⟨4, "present", none⟩, ⟨5, "present", none⟩, ⟨6, "absent", some "Medical"⟩] :
        List Consistency.CRecord).length ∧
    1 ≤ ([⟨1, "present", none⟩, ⟨2, "present", none⟩, ⟨3, "absent", none⟩,
      ⟨4, "present", none⟩, ⟨5, "present", none⟩, ⟨6, "absent", some "Medical"⟩] :
        List Consistency.CRecord).countP (fun r => r.status == "absent") ∧
    Consistency.decisionTreeOK (Consistency.calculate_consistency_analysis
      [⟨1, "present", none⟩, ⟨2, "present", none⟩, ⟨3, "absent", none⟩,
       ⟨4, "present", none⟩, ⟨5, "present", none⟩, ⟨6, "absent", some "Medical"⟩]) :=
  ⟨by decide, by decide,
    consistency_decision_tree _ (by decide) (by decide)⟩


/-- C10: for every history with at least 5 sessions, (a) if there is at least
one absence but no two chronologically adjacent absent sessions, the analyzer
reports `consecutive_absence_incidents = 0` together with
`max_absence_streak = 1` (not 0); and (b) `max_absence_streak = 0` is reported
exactly on the perfect-attendance path, i.e. iff there are no absences. -/
theorem consistency_isolated_absences (records : List Consistency.CRecord)
    (h5 : 5 ≤ records.length) :
    ((1 ≤ records.countP (fun r => r.status == "absent") →
      List.Chain' (fun a b => ¬(a.status = "absent" ∧ b.status = "absent"))
        (Consistency.sortChron records) →
      (Consistency.calculate_consistency_analysis records).consecutiveAbsenceIncidents = some 0 ∧
      (Consistency.calculate_consistency_analysis records).maxAbsenceStreak = some 1) ∧
    ((Consistency.calculate_consistency_analysis records).maxAbsenceStreak = some 0 ↔
      records.countP (fun r => r.status == "absent") = 0)) := by
  constructor
  · intro habs hisol
    rw [Consistency.calculate_full records h5 habs]
    have hnil : Consistency.streaks3 (Consistency.sortChron records) = [] :=
      Consistency.streaks3_eq_nil_of_isolated _ hisol
    simp [hnil, Consistency.maxAbsenceStreakOf]
  · by_cases habs : records.countP (fun r => r.status == "absent") = 0
    · rw [Consistency.calculate_perfect records h5 habs]
      simp [habs]
    · rw [Consistency.calculate_full records h5 (by omega)]
      simp only [Option.some.injEq]
      constructor
      · intro hmax
        exact absurd hmax (Consistency.maxAbsenceStreakOf_ne_zero _
          (Consistency.streaksGo_mem_two_le _ [] 0 (by simp)))
      · intro h; exact absurd h habs

/-- Witness for `consistency_isolated_absences` at the same 6-session history
with two isolated absences. -/
theorem consistency_isolated_absences_witness :
    5 ≤ ([⟨1, "present", none⟩, ⟨2, "present", none⟩, ⟨3, "absent", none⟩,
      ⟨4, "present", none⟩, ⟨5, "present", none⟩, ⟨6, "absent", some "Flu"⟩] :
        List Consistency.CRecord).length ∧
    ((1 ≤ ([⟨1, "present", none⟩, ⟨2, "present", none⟩, ⟨3, "absent", none⟩,
        ⟨4, "present", none⟩, ⟨5, "present", none⟩, ⟨6, "absent", some "Flu"⟩] :
          List Consistency.CRecord).countP (fun r => r.status == "absent") →
      List.Chain' (fun a b => ¬(a.status = "absent" ∧ b.status = "absent"))
        (Consistency.sortChron
          [⟨1, "present", none⟩, ⟨2, "present", none⟩, ⟨3, "absent", none⟩,
           ⟨4, "present", none⟩, ⟨5, "present", none⟩, ⟨6, "absent", some "Flu"⟩]) →
      (Consistency.calculate_consistency_analysis
        [⟨1, "present", none⟩, ⟨2, "present", none⟩, ⟨3, "absent", none⟩,
         ⟨4, "present", none⟩, ⟨5, "present", none⟩,
         ⟨6, "absent", some "Flu"⟩]).consecutiveAbsenceIncidents = some 0 ∧
      (Consistency.calculate_consistency_analysis
        [⟨1, "present", none⟩, ⟨2, "present", none⟩, ⟨3, "absent", none⟩,
         ⟨4, "present", none⟩, ⟨5, "present", none⟩,
         ⟨6, "absent", some "Flu"⟩]).maxAbsenceStreak = some 1) ∧
    ((Consistency.calculate_consistency_analysis
        [⟨1, "present", none⟩, ⟨2, "present", none⟩, ⟨3, "absent", none⟩,
         ⟨4, "present", none⟩, ⟨5, "present", none⟩,
         ⟨6, "absent", some "Flu"⟩]).maxAbsenceStreak = some 0 ↔
      ([⟨1, "present", none⟩, ⟨2, "present", none⟩, ⟨3, "absent", none⟩,
        ⟨4, "present", none⟩, ⟨5, "present", none⟩, ⟨6, "absent", some "Flu"⟩] :
          List Consistency.CRecord).countP (fun r => r.status == "absent") = 0)) :=
  ⟨by decide, consistency_isolated_absences _ (by decide)⟩

namespace Trend

/-- Attendance record as consumed by `model1_trend_analysis.py`. -/
structure TRecord where
  sessionDate : ℕ
  status : String
deriving Repr, DecidableEq

/-- Model1 counts a record as attended when `status in ['present', 'excused']`
(model1 lines 70, 90, 109, 115, 126, 142). -/
def presentish (r : TRecord) : Bool := r.status == "present" || r.status == "excused"

/-- `sorted(records, key=session_date, reverse=True)` (model1 lines 31-35). -/
def sortDesc (l : List TRecord) : List TRecord :=
  List.insertionSort (fun a b => b.sessionDate ≤ a.sessionDate) l

/-- Output of `calculate_trend_analysis`.  Metric keys set only on the full
path are `Option` fields; `percentageChange` carries the unrounded value the
decision rule consumes.  `volatility_score` and `time_span_days` are
display-only metrics (never consulted by any decision) and are left out of
the embedding, as are the `message`/`notes`/`warnings` strings. -/
structure TrendResult where
  trend : String
  confidence : String
  totalSessions : ℕ
  overallPercentage : ℚ
  firstHalfPercentage : Option ℚ := none
  secondHalfPercentage : Option ℚ := none
  percentageChange : Option ℚ := none
  recentMomentum : Option ℚ := none
  consecutiveAbsenceStreak : Option ℕ := none
deriving Repr, DecidableEq

/-- The most-recent-20 analysis window (model1 lines 37-39). -/
def windowOf (records : List TRecord) : List TRecord := (sortDesc records).take 20

/-- Present percentage of a record list under model1's counting rule. -/
def pctOf (l : List TRecord) : ℚ :=
  if 0 < l.length then ((l.filter presentish).length : ℚ) / (l.length : ℚ) * 100 else 0

/-- First chronological half of the window (model1 lines 100-105). -/
def firstHalfOf (records : List TRecord) : List TRecord :=
  (windowOf records).reverse.take ((windowOf records).length / 2)

/-- Second chronological half of the window (model1 line 106). -/
def secondHalfOf (records : List TRecord) : List TRecord :=
  (windowOf records).reverse.drop ((windowOf records).length / 2)

/-- `percentage_change = second_half_percentage - first_half_percentage`
(model1 line 121). -/
def changeOf (records : List TRecord) : ℚ :=
  pctOf (secondHalfOf records) - pctOf (firstHalfOf records)

/-- `recent_momentum` over the last `min(3, total)` records (model1 lines 124-127). -/
def momentumOf (records : List TRecord) : ℚ :=
  pctOf ((sortDesc records).take (min 3 (windowOf records).length))

/-- `consecutive_absence_streak` counted from the most recent record
backward (model1 lines 131-137). -/
def absenceStreakOf (records : List TRecord) : ℕ :=
  ((sortDesc records).takeWhile (fun r => r.status == "absent")).length

/-- Model1's inline confidence thresholds (model1 lines 164-172); textually
identical to model3's `get_confidence_level`. -/
def trendConfidence (total : ℕ) : String :=
  if total < 5 then "none" else if total < 10 then "low"
  else if total < 15 then "medium" else "high"

/-- `calculate_trend_analysis` (model1 lines 19-210): sort most-recent-first,
keep the last-20 window, short-circuit on 0 or fewer than 5 sessions,
otherwise split the chronological window at the midpoint and classify the
percentage change at the exact ±10 thresholds. -/
def calculate_trend_analysis (records : List TRecord) : TrendResult :=
  let total := (windowOf records).length
  if total = 0 then
    { trend := "no_data", confidence := "none", totalSessions := 0, overallPercentage := 0 }
  else if total < 5 then
    { trend := "stable", confidence := "none", totalSessions := total,
      overallPercentage := pctOf (windowOf records) }
  else
    { trend := if 10 < changeOf records then "improving"
        else if changeOf records < -10 then "declining" else "stable",
      confidence := trendConfidence total,
      totalSessions := total, overallPercentage := pctOf (windowOf records),
      firstHalfPercentage := some (pctOf (firstHalfOf records)),
      secondHalfPercentage := some (pctOf (secondHalfOf records)),
      percentageChange := some (changeOf records),
      recentMomentum := some (momentumOf records),
      consecutiveAbsenceStreak := some (absenceStreakOf records) }

/-- The §4.1 decision rule, phrased over the result's reported change. -/
def trendRuleOK (r : TrendResult) : Prop :=
  (r.trend = "improving" ↔ 10 < r.percentageChange.getD 0) ∧
  (r.trend = "declining" ↔ r.percentageChange.getD 0 < -10) ∧
  (r.trend = "stable" ↔ (¬ 10 < r.percentageChange.getD 0 ∧ ¬ r.percentageChange.getD 0 < -10))

end Trend

namespace Trend

theorem calculate_trend_full (records : List TRecord) (h5 : 5 ≤ records.length) :
    calculate_trend_analysis records =
      { trend := if 10 < changeOf records then "improving"
          else if changeOf records < -10 then "declining" else "stable",
        confidence := trendConfidence (windowOf records).length,
        totalSessions := (windowOf records).length,
        overallPercentage := pctOf (windowOf records),
        firstHalfPercentage := some (pctOf (firstHalfOf records)),
        secondHalfPercentage := some (pctOf (secondHalfOf records)),
        percentageChange := some (changeOf records),
        recentMomentum := some (momentumOf records),
        consecutiveAbsenceStreak := some (absenceStreakOf records) } := by
  have hw : (windowOf records).length = min 20 records.length := by
    rw [windowOf, List.length_take, sortDesc, List.length_insertionSort]
  have h0 : ¬ (windowOf records).length = 0 := by omega
  have h1 : ¬ (windowOf records).length < 5 := by omega
  unfold calculate_trend_analysis
  rw [if_neg h0, if_neg h1]

end Trend


/-- Concrete 20-session history for the C7 witness: chronological first half
(dates 1-10) at 50% attendance, second half (dates 11-20) at 70%. -/
def trendWitnessRecords : List Trend.TRecord :=
  [⟨1, "present"⟩, ⟨2, "absent"⟩, ⟨3, "present"⟩, ⟨4, "absent"⟩, ⟨5, "present"⟩, ⟨6, "absent"⟩, ⟨7, "present"⟩, ⟨8, "absent"⟩, ⟨9, "present"⟩, ⟨10, "absent"⟩, ⟨11, "absent"⟩, ⟨12, "absent"⟩, ⟨13, "absent"⟩, ⟨14, "present"⟩, ⟨15, "present"⟩, ⟨16, "present"⟩, ⟨17, "present"⟩, ⟨18, "present"⟩, ⟨19, "present"⟩, ⟨20, "present"⟩]

/-- C7: for every history whose most-recent-20 window holds at least 5
records (equivalently, every history with at least 5 records), the
TrendAnalyzer returns `improving` exactly when the second-half minus
first-half percentage change exceeds 10, `declining` exactly when it is
below −10, and `stable` otherwise — exact thresholds, no hysteresis. -/
theorem trend_threshold_rule (records : List Trend.TRecord)
    (h5 : 5 ≤ records.length) :
    Trend.trendRuleOK (Trend.calculate_trend_analysis records) := by
  rw [Trend.calculate_trend_full records h5]
  unfold Trend.trendRuleOK
  simp only [Option.getD_some]
  refine ⟨?_, ?_, ?_⟩ <;> split_ifs <;> (simp_all; try linarith)

/-- The trend witness history evaluates as the spec example says: first half
50%, second half 70%, change +20, trend `improving`. -/
theorem trendWitness_improving :
    (Trend.calculate_trend_analysis trendWitnessRecords).trend = "improving" ∧
    (Trend.calculate_trend_analysis trendWitnessRecords).firstHalfPercentage = some 50 ∧
    (Trend.calculate_trend_analysis trendWitnessRecords).secondHalfPercentage = some 70 := by
  have hfl : (List.filter Trend.presentish (Trend.firstHalfOf trendWitnessRecords)).length = 5 := by
    decide
  have hfl2 : (Trend.firstHalfOf trendWitnessRecords).length = 10 := by decide
  have hsl : (List.filter Trend.presentish (Trend.secondHalfOf trendWitnessRecords)).length = 7 := by
    decide
  have hsl2 : (Trend.secondHalfOf trendWitnessRecords).length = 10 := by decide
  have hfp : Trend.pctOf (Trend.firstHalfOf trendWitnessRecords) = 50 := by
    rw [Trend.pctOf, hfl, hfl2]; norm_num
  have hsp : Trend.pctOf (Trend.secondHalfOf trendWitnessRecords) = 70 := by
    rw [Trend.pctOf, hsl, hsl2]; norm_num
  have hch : Trend.changeOf trendWitnessRecords = 20 := by
    rw [Trend.changeOf, hfp, hsp]; norm_num
  rw [Trend.calculate_trend_full trendWitnessRecords (by decide)]
  simp only [hch, hfp, hsp]
  norm_num

/-- Witness for `trend_threshold_rule` at the concrete 20-session history. -/
theorem trend_threshold_rule_witness :
    5 ≤ (trendWitnessRecords).length ∧
    Trend.trendRuleOK (Trend.calculate_trend_analysis trendWitnessRecords) :=
  ⟨by decide, trend_threshold_rule _ (by decide)⟩

namespace Attentive

/-- Attendance record as consumed by `model4_attentiveness_analysis.py`:
`attentiveness`/`emotion` are `none` when face recognition produced no data. -/
structure ARecord where
  status : String
  attentiveness : Option String
  emotion : Option String
deriving Repr, DecidableEq

/-- `present_sessions` filter (model4 lines 23-28): present records carrying
both attentiveness and emotion. -/
def presentSessions (attendanceData : List ARecord) : List ARecord :=
  attendanceData.filter
    (fun r => r.status == "present" && r.attentiveness != none && r.emotion != none)

/-- The 3/2/1 attentiveness scores of model4 lines 70-78 (records whose
`attentiveness` is none of the three levels contribute nothing). -/
def attentivenessScores (present : List ARecord) : List ℚ :=
  present.filterMap (fun r =>
    if r.attentiveness = some "High" then some 3
    else if r.attentiveness = some "Medium" then some 2
    else if r.attentiveness = some "Low" then some 1
    else none)

/-- Output of `calculate_attentiveness_features` (model4 lines 12-98).
`attentivenessConsistencyVar` carries the square of the source's
`attentiveness_consistency` (which is `np.std`); the one place the value is
consulted (`> 0.8` in `calculate_confidence`) is embedded as `> 0.64` on the
variance, an exact rewrite. -/
structure AttFeatures where
  totalPresentSessions : ℕ
  dataQualityScore : ℚ
  highAttentivenessRatio : ℚ
  mediumAttentivenessRatio : ℚ
  lowAttentivenessRatio : ℚ
  positiveEmotionRatio : ℚ
  neutralEmotionRatio : ℚ
  negativeEmotionRatio : ℚ
  averageAttentivenessScore : ℚ
  attentivenessConsistencyVar : ℚ
deriving Repr, DecidableEq

/-- `calculate_attentiveness_features` (model4 lines 12-98). -/
def calculate_attentiveness_features (attendanceData : List ARecord) : AttFeatures :=
  let present := presentSessions attendanceData
  let totalPresent := present.length
  if totalPresent = 0 then
    { totalPresentSessions := 0, dataQualityScore := 0,
      highAttentivenessRatio := 0, mediumAttentivenessRatio := 0,
      lowAttentivenessRatio := 0, positiveEmotionRatio := 0,
      neutralEmotionRatio := 0, negativeEmotionRatio := 0,
      averageAttentivenessScore := 0, attentivenessConsistencyVar := 0 }
  else
    let highCount := (present.filter (fun r => r.attentiveness == some "High")).length
    let mediumCount := (present.filter (fun r => r.attentiveness == some "Medium")).length
    let lowCount := (present.filter (fun r => r.attentiveness == some "Low")).length
    let positiveCount := (present.filter
      (fun r => r.emotion == some "happy" || r.emotion == some "surprise")).length
    let neutralCount := (present.filter (fun r => r.emotion == some "neutral")).length
    let negativeCount := (present.filter (fun r => r.emotion == some "sad" ||
      r.emotion == some "angry" || r.emotion == some "fear" ||
      r.emotion == some "disgust")).length
    let scores := attentivenessScores present
    { totalPresentSessions := totalPresent,
      dataQualityScore := (totalPresent : ℚ) / (attendanceData.length : ℚ),
      highAttentivenessRatio := (highCount : ℚ) / (totalPresent : ℚ),
      mediumAttentivenessRatio := (mediumCount : ℚ) / (totalPresent : ℚ),
      lowAttentivenessRatio := (lowCount : ℚ) / (totalPresent : ℚ),
      positiveEmotionRatio := (positiveCount : ℚ) / (totalPresent : ℚ),
      neutralEmotionRatio := (neutralCount : ℚ) / (totalPresent : ℚ),
      negativeEmotionRatio := (negativeCount : ℚ) / (totalPresent : ℚ),
      averageAttentivenessScore := if scores ≠ [] then meanQ scores else 0,
      attentivenessConsistencyVar := if 1 < scores.length then popVarQ scores else 0 }

/-- `calculate_confidence` (model4 lines 100-130); the `std > 0.8` test is
embedded as `var > 0.64`.  The deductions are collected over `ℤ` as in the
source's plain integer arithmetic. -/
def calculate_confidence (features : AttFeatures) : String :=
  let score : ℤ := 100 -
    (if features.totalPresentSessions < 10 then 30
     else if features.totalPresentSessions < 20 then 15 else 0) -
    (if features.dataQualityScore < 0.8 then 20 else 0) -
    (if 0.64 < features.attentivenessConsistencyVar then 15 else 0)
  if 75 ≤ score then "high"
  else if 50 ≤ score then "medium"
  else if 30 ≤ score then "low"
  else "none"

/-- Output of `classify_attentiveness`: keys the source sets only on some
paths are `Option` fields; the constant `reason` strings are kept,
`message`/`interpretation` display strings are not part of the embedding.
`faceScore` carries the unrounded value (the dict stores `round(·, 3)`). -/
structure AttResult where
  status : String
  attentiveness : Option String
  confidence : String
  faceScore : Option ℚ := none
  consistencyChecked : Option Bool := none
  consistencyFromModel3 : Option (Option String) := none
  reason : Option String := none
  sessionsAnalyzed : ℕ
  features : AttFeatures
deriving Repr, DecidableEq

/-- `face_score = high_ratio * 0.5 + positive_emotion_ratio * 0.5`
(model4 line 183). -/
def faceScoreOf (features : AttFeatures) : ℚ :=
  features.highAttentivenessRatio * 0.5 + features.positiveEmotionRatio * 0.5

/-- `classify_attentiveness` (model4 lines 132-263): data gates first, then
face score with the consistency label consulted only in the two borderline
bands. -/
def classify_attentiveness (features : AttFeatures)
    (consistencyFromModel3 : Option String) : AttResult :=
  if features.totalPresentSessions = 0 then
    { status := "no_data", attentiveness := none, confidence := "none",
      sessionsAnalyzed := 0, features := features }
  else if features.totalPresentSessions < 5 then
    { status := "early_stage", attentiveness := some "moderately_attentive",
      confidence := "none", sessionsAnalyzed := features.totalPresentSessions,
      features := features }
  else if features.dataQualityScore < 0.6 then
    { status := "low_quality_data", attentiveness := some "moderately_attentive",
      confidence := "low", sessionsAnalyzed := features.totalPresentSessions,
      features := features }
  else
    let faceScore := faceScoreOf features
    if 0.70 ≤ faceScore then
      { status := "analyzed", attentiveness := some "actively_attentive",
        confidence := calculate_confidence features, faceScore := some faceScore,
        consistencyChecked := some false,
        reason := some "High engagement detected through face recognition",
        sessionsAnalyzed := features.totalPresentSessions, features := features }
    else if 0.40 ≤ faceScore then
      if consistencyFromModel3 = some "regular" ∧ 0.50 ≤ faceScore then
        { status := "analyzed", attentiveness := some "actively_attentive",
          confidence := calculate_confidence features, faceScore := some faceScore,
          consistencyChecked := some true,
          consistencyFromModel3 := some consistencyFromModel3,
          reason := some "Moderate-high engagement + regular attendance",
          sessionsAnalyzed := features.totalPresentSessions, features := features }
      else
        { status := "analyzed", attentiveness := some "moderately_attentive",
          confidence := calculate_confidence features, faceScore := some faceScore,
          consistencyChecked := some true,
          consistencyFromModel3 := some consistencyFromModel3,
          reason := some (if consistencyFromModel3 = some "highly_irregular" then
            "Moderate engagement but irregular attendance"
            else "Moderate engagement with acceptable attendance"),
          sessionsAnalyzed := features.totalPresentSessions, features := features }
    else
      if consistencyFromModel3 = some "regular" ∧ 0.30 ≤ faceScore then
        { status := "analyzed", attentiveness := some "moderately_attentive",
          confidence := calculate_confidence features, faceScore := some faceScore,
          consistencyChecked := some true,
          consistencyFromModel3 := some consistencyFromModel3,
          reason := some "Low engagement but regular attendance - may be shy/introverted",
          sessionsAnalyzed := features.totalPresentSessions, features := features }
      else
        { status := "analyzed", attentiveness := some "passively_attentive",
          confidence := calculate_confidence features, faceScore := some faceScore,
          consistencyChecked := some true,
          consistencyFromModel3 := some consistencyFromModel3,
          reason := some (if consistencyFromModel3 = some "highly_irregular" then
            "Low engagement combined with irregular attendance"
            else "Low engagement detected through face recognition"),
          sessionsAnalyzed := features.totalPresentSessions, features := features }

/-- `analyze_attentiveness` (model4 lines 265-282). -/
def analyze_attentiveness (attendanceData : List ARecord)
    (consistencyFromModel3 : Option String) : AttResult :=
  classify_attentiveness (calculate_attentiveness_features attendanceData)
    consistencyFromModel3

end Attentive

namespace Attentive

theorem classify_high_band (f : AttFeatures) (c : Option String)
    (h5 : 5 ≤ f.totalPresentSessions) (hq : (0.6 : ℚ) ≤ f.dataQualityScore)
    (h7 : (0.70 : ℚ) ≤ faceScoreOf f) :
    classify_attentiveness f c =
      { status := "analyzed", attentiveness := some "actively_attentive",
        confidence := calculate_confidence f, faceScore := some (faceScoreOf f),
        consistencyChecked := some false,
        reason := some "High engagement detected through face recognition",
        sessionsAnalyzed := f.totalPresentSessions, features := f } := by
  unfold classify_attentiveness
  rw [if_neg (by omega), if_neg (by omega), if_neg (not_lt.mpr hq), if_pos h7]

theorem classify_low_band (f : AttFeatures) (c : Option String)
    (h5 : 5 ≤ f.totalPresentSessions) (hq : (0.6 : ℚ) ≤ f.dataQualityScore)
    (h4 : faceScoreOf f < 0.40) :
    (classify_attentiveness f c).attentiveness =
      some (if c = some "regular" ∧ (0.30 : ℚ) ≤ faceScoreOf f then
        "moderately_attentive" else "passively_attentive") := by
  unfold classify_attentiveness
  rw [if_neg (by omega), if_neg (by omega), if_neg (not_lt.mpr hq),
    if_neg (by intro h; linarith), if_neg (by intro h; linarith)]
  by_cases hc : c = some "regular" ∧ (0.30 : ℚ) ≤ faceScoreOf f
  · rw [if_pos hc, if_pos hc]
  · rw [if_neg hc, if_neg hc]

end Attentive

/-- C6: with at least 5 qualifying present sessions and data quality ≥ 0.6,
(a) a face score ≥ 0.70 yields `actively_attentive` and the upstream
consistency label is never consulted (the result is identical for every
consistency input), and (b) a face score < 0.40 yields
`moderately_attentive` exactly when consistency is `regular` and the face
score is ≥ 0.30, else `passively_attentive`. -/
theorem attentiveness_face_gate (data : List Attentive.ARecord) (c : Option String)
    (h5 : 5 ≤ (Attentive.calculate_attentiveness_features data).totalPresentSessions)
    (hq : (0.6 : ℚ) ≤ (Attentive.calculate_attentiveness_features data).dataQualityScore) :
    ((0.70 : ℚ) ≤ Attentive.faceScoreOf (Attentive.calculate_attentiveness_features data) →
      (Attentive.analyze_attentiveness data c).attentiveness = some "actively_attentive" ∧
      ∀ c', Attentive.analyze_attentiveness data c = Attentive.analyze_attentiveness data c') ∧
    (Attentive.faceScoreOf (Attentive.calculate_attentiveness_features data) < 0.40 →
      (Attentive.analyze_attentiveness data c).attentiveness =
        some (if c = some "regular" ∧
            (0.30 : ℚ) ≤ Attentive.faceScoreOf (Attentive.calculate_attentiveness_features data)
          then "moderately_attentive" else "passively_attentive")) := by
  constructor
  · intro h7
    constructor
    · rw [Attentive.analyze_attentiveness, Attentive.classify_high_band _ _ h5 hq h7]
    · intro c'
      rw [Attentive.analyze_attentiveness, Attentive.analyze_attentiveness,
        Attentive.classify_high_band _ _ h5 hq h7, Attentive.classify_high_band _ _ h5 hq h7]
  · intro h4
    rw [Attentive.analyze_attentiveness]
    exact Attentive.classify_low_band _ _ h5 hq h4

/-- Ten present sessions, all `High` attentiveness and `happy` emotion
(the §8 attentiveness example). -/
def attHighDemo : List Attentive.ARecord :=
  [⟨"present", some "High", some "happy"⟩, ⟨"present", some "High", some "happy"⟩,
   ⟨"present", some "High", some "happy"⟩, ⟨"present", some "High", some "happy"⟩,
   ⟨"present", some "High", some "happy"⟩, ⟨"present", some "High", some "happy"⟩,
   ⟨"present", some "High", some "happy"⟩, ⟨"present", some "High", some "happy"⟩,
   ⟨"present", some "High", some "happy"⟩, ⟨"present", some "High", some "happy"⟩]

theorem features_proj (data : List Attentive.ARecord)
    (h : ¬ (Attentive.presentSessions data).length = 0) :
    (Attentive.calculate_attentiveness_features data).totalPresentSessions =
      (Attentive.presentSessions data).length ∧
    (Attentive.calculate_attentiveness_features data).dataQualityScore =
      ((Attentive.presentSessions data).length : ℚ) / (data.length : ℚ) ∧
    (Attentive.calculate_attentiveness_features data).highAttentivenessRatio =
      (((Attentive.presentSessions data).filter
          (fun r => r.attentiveness == some "High")).length : ℚ) /
        ((Attentive.presentSessions data).length : ℚ) ∧
    (Attentive.calculate_attentiveness_features data).positiveEmotionRatio =
      (((Attentive.presentSessions data).filter
          (fun r => r.emotion == some "happy" || r.emotion == some "surprise")).length : ℚ) /
        ((Attentive.presentSessions data).length : ℚ) ∧
    (Attentive.calculate_attentiveness_features data).attentivenessConsistencyVar =
      (if 1 < (Attentive.attentivenessScores (Attentive.presentSessions data)).length then
        popVarQ (Attentive.attentivenessScores (Attentive.presentSessions data)) else 0) := by
  unfold Attentive.calculate_attentiveness_features
  rw [if_neg h]
  exact ⟨rfl, rfl, rfl, rfl, rfl⟩

theorem attHighDemo_quality :
    (0.6 : ℚ) ≤ (Attentive.calculate_attentiveness_features attHighDemo).dataQualityScore := by
  rw [(features_proj attHighDemo (by decide)).2.1,
    show (Attentive.presentSessions attHighDemo).length = 10 from by decide,
    show attHighDemo.length = 10 from by decide]
  norm_num

theorem attHighDemo_face :
    (0.70 : ℚ) ≤ Attentive.faceScoreOf (Attentive.calculate_attentiveness_features attHighDemo) := by
  rw [Attentive.faceScoreOf, (features_proj attHighDemo (by decide)).2.2.1,
    (features_proj attHighDemo (by decide)).2.2.2.1,
    show ((Attentive.presentSessions attHighDemo).filter
      (fun r => r.attentiveness == some "High")).length = 10 from by decide,
    show ((Attentive.presentSessions attHighDemo).filter
      (fun r => r.emotion == some "happy" || r.emotion == some "surprise")).length = 10
      from by decide,
    show (Attentive.presentSessions attHighDemo).length = 10 from by decide]
  norm_num

/-- Witness for `attentiveness_face_gate`: the ten `High`+`happy` sessions
have face score 1.0 and are classified `actively_attentive` even against a
`highly_irregular` consistency input. -/
theorem attentiveness_face_gate_witness :
    5 ≤ (Attentive.calculate_attentiveness_features attHighDemo).totalPresentSessions ∧
    (0.6 : ℚ) ≤ (Attentive.calculate_attentiveness_features attHighDemo).dataQualityScore ∧
    (Attentive.analyze_attentiveness attHighDemo
      (some "highly_irregular")).attentiveness = some "actively_attentive" :=
  ⟨by decide, attHighDemo_quality,
    ((attentiveness_face_gate attHighDemo (some "highly_irregular") (by decide)
      attHighDemo_quality).1 attHighDemo_face).1⟩

/-- Twelve-session history: ten present sessions with face data (all `Medium`
attentiveness, `neutral` emotion) and two absences. -/
def attWitness12 : List Attentive.ARecord :=
  [⟨"present", some "Medium", some "neutral"⟩, ⟨"present", some "Medium", some "neutral"⟩,
   ⟨"present", some "Medium", some "neutral"⟩, ⟨"present", some "Medium", some "neutral"⟩,
   ⟨"present", some "Medium", some "neutral"⟩, ⟨"present", some "Medium", some "neutral"⟩,
   ⟨"present", some "Medium", some "neutral"⟩, ⟨"present", some "Medium", some "neutral"⟩,
   ⟨"present", some "Medium", some "neutral"⟩, ⟨"present", some "Medium", some "neutral"⟩,
   ⟨"absent", none, none⟩, ⟨"absent", none, none⟩]

/-- The same history with one more absent session appended. -/
def attWitness13 : List Attentive.ARecord := attWitness12 ++ [⟨"absent", none, none⟩]

/-- Counterexample to C8: in the attentiveness stage, appending a session to
a 12-session history (leaving every existing record unchanged) drops the
reported confidence from `high` to `medium` — the data-quality deduction of
`calculate_confidence` crosses the 0.8 threshold — so stage confidence is
not monotonic non-decreasing in session count, and the attentiveness stage
does not step at the 5/10/15 session thresholds. -/
theorem attentiveness_confidence_drop :
    attWitness12.length < attWitness13.length ∧
    (Attentive.analyze_attentiveness attWitness12 none).confidence = "high" ∧
    (Attentive.analyze_attentiveness attWitness13 none).confidence = "medium" ∧
    confRank ((Attentive.analyze_attentiveness attWitness13 none).confidence) <
      confRank ((Attentive.analyze_attentiveness attWitness12 none).confidence) := by
  have h12 : (Attentive.analyze_attentiveness attWitness12 none).confidence = "high" := by
    simp +decide [Attentive.analyze_attentiveness, Attentive.classify_attentiveness,
      Attentive.calculate_attentiveness_features, Attentive.presentSessions,
      Attentive.attentivenessScores, Attentive.calculate_confidence, Attentive.faceScoreOf,
      attWitness12, popVarQ, meanQ]
    norm_num
  have h13 : (Attentive.analyze_attentiveness attWitness13 none).confidence = "medium" := by
    simp +decide [Attentive.analyze_attentiveness, Attentive.classify_attentiveness,
      Attentive.calculate_attentiveness_features, Attentive.presentSessions,
      Attentive.attentivenessScores, Attentive.calculate_confidence, Attentive.faceScoreOf,
      attWitness13, attWitness12, popVarQ, meanQ]
    norm_num
  refine ⟨by decide, h12, h13, ?_⟩
  rw [h12, h13]
  simp [confRank]

/-- C8 (amended): the trend and consistency stages report confidence through
the same thresholds — `none` below 5 sessions, `low` at 5-9, `medium` at
10-14, `high` at 15+ — and that level is monotone non-decreasing in session
count.  (The attentiveness stage's confidence uses present-session
thresholds 10/20 with data-quality and variance deductions instead, and is
not monotone in the record count; see `attentiveness_confidence_drop`.) -/
theorem confidence_monotone_5_10_15 (n m : ℕ) (h : n ≤ m) :
    confRank (Consistency.get_confidence_level n) ≤
      confRank (Consistency.get_confidence_level m) ∧
    Trend.trendConfidence n = Consistency.get_confidence_level n ∧
    (Consistency.get_confidence_level n = "none" ↔ n < 5) ∧
    (Consistency.get_confidence_level n = "low" ↔ 5 ≤ n ∧ n < 10) ∧
    (Consistency.get_confidence_level n = "medium" ↔ 10 ≤ n ∧ n < 15) ∧
    (Consistency.get_confidence_level n = "high" ↔ 15 ≤ n) := by
  have key : ∀ k : ℕ, confRank (Consistency.get_confidence_level k) =
      if k < 5 then 0 else if k < 10 then 1 else if k < 15 then 2 else 3 := by
    intro k
    unfold Consistency.get_confidence_level
    split_ifs <;> simp [confRank]
  refine ⟨?_, rfl, ?_, ?_, ?_, ?_⟩
  · rw [key n, key m]
    split_ifs <;> omega
  all_goals unfold Consistency.get_confidence_level
  all_goals split_ifs <;> (simp_all; try omega)

/-- Witness for `confidence_monotone_5_10_15` at 7 ≤ 12 sessions. -/
theorem confidence_monotone_5_10_15_witness :
    (7 : ℕ) ≤ 12 ∧
    (confRank (Consistency.get_confidence_level 7) ≤
      confRank (Consistency.get_confidence_level 12) ∧
    Trend.trendConfidence 7 = Consistency.get_confidence_level 7 ∧
    (Consistency.get_confidence_level 7 = "none" ↔ 7 < 5) ∧
    (Consistency.get_confidence_level 7 = "low" ↔ 5 ≤ 7 ∧ 7 < 10) ∧
    (Consistency.get_confidence_level 7 = "medium" ↔ 10 ≤ 7 ∧ 7 < 15) ∧
    (Consistency.get_confidence_level 7 = "high" ↔ 15 ≤ 7)) :=
  ⟨by decide, confidence_monotone_5_10_15 7 12 (by decide)⟩

namespace Risk

/-- Attendance record as consumed by `model2_risk_prediction.py`. -/
structure SRecord where
  status : String
  reasonType : Option String
  sessionDate : ℕ
  attentiveness : Option String
  emotion : Option String
deriving Repr, DecidableEq

/-- The fields `extract_features` reads from the Model 1 result dict, each
`Option` because the source uses `.get` with a default. -/
structure M1Result where
  trend : Option String
  trendStrength : Option ℚ
deriving Repr, DecidableEq

/-- The fields `extract_features` reads from the Model 3 result dict. -/
structure M3Result where
  consistency : Option String
  maxConsecutiveAbsences : Option ℚ
  avgConsecutiveAbsences : Option ℚ
  clusteringScore : Option ℚ
deriving Repr, DecidableEq

/-- The fields `extract_features` reads from the Model 4 result dict. -/
structure M4Result where
  attentiveness : Option String
  averageAttentivenessScore : Option ℚ
  positiveEmotionRatio : Option ℚ
deriving Repr, DecidableEq

/-- One entry of `class_data['sessions']`. -/
structure ClassSessionInfo where
  totalStudents : ℕ
  presentCount : ℕ
deriving Repr, DecidableEq

/-- One entry of `class_data['students']` (only `records` is read). -/
structure ClassStudent where
  records : List SRecord
deriving Repr, DecidableEq

/-- `class_data`: a date-keyed session dict plus the student roster. -/
structure ClassData where
  sessions : List (ℕ × ClassSessionInfo)
  students : List ClassStudent
deriving Repr, DecidableEq

/-- `sum(1 for r in l if r.get('status') == 'present')`. -/
def presentCountR (l : List SRecord) : ℕ :=
  (l.filter (fun r => r.status == "present")).length

/-- `(present / total * 100) if total > 0 else 0`, the attendance-percentage
shape used for the student (line 84) and for each class member (line 429). -/
def pctR (l : List SRecord) : ℚ :=
  if 0 < l.length then (presentCountR l : ℚ) / (l.length : ℚ) * 100 else 0

/-- Python `int(...)` on a float/rational: truncation toward zero. -/
def intTrunc (q : ℚ) : ℤ := q.num.tdiv (q.den : ℤ)

/-- The 3/2/1 attentiveness score with default `Medium` for a missing or
unrecognised level (model2 lines 246-247 and 266-268). -/
def attScoreR (r : SRecord) : ℚ :=
  if r.attentiveness == some "High" then 3
  else if r.attentiveness == some "Low" then 1 else 2

end Risk

namespace Risk

/-- `extract_features` (model2 lines 43-531): the 45-entry feature vector,
built as seven `features.extend` blocks in the source's order.

External numeric primitives are explicit parameters: `sq` is the final
square root of `np.std` (applied here to the exactly-computed population
variance), `nowDays` is `datetime.now()` as a day number, and `parseDate`
is `datetime.fromisoformat` (returning `none` both for the empty string and
for a parse failure, the two cases the source sends to the same
`total_sessions / 2` fallback).  `planned` is `total_sessions_planned`. -/
def extract_features (sq : ℚ → ℚ) (nowDays : ℤ) (parseDate : ℕ → Option ℤ)
    (studentData : List SRecord) (m1 : M1Result) (m3 : M3Result) (m4 : M4Result)
    (classData : Option ClassData) (planned : ℤ) : List ℚ :=
  -- Category 1: current state (lines 75-109)
  let total := studentData.length
  let presentCount := presentCountR studentData
  let absentCount := total - presentCount
  let currentAttendance := if 0 < total then (presentCount : ℚ) / (total : ℚ) * 100 else 0
  let excusedAbsenceCount := (studentData.filter
    (fun r => r.status == "absent" && r.reasonType != none)).length
  let unexcusedAbsenceCount := absentCount - excusedAbsenceCount
  let attendanceVariance := if 5 ≤ total then
    sq (popVarQ (studentData.map (fun r => if r.status == "present" then (1 : ℚ) else 0))) * 100
    else 0
  -- Category 2: trend (lines 111-174)
  let trendStr := m1.trend.getD "stable"
  let trendDirection : ℚ := if trendStr = "improving" then 1
    else if trendStr = "stable" then 0 else if trendStr = "declining" then -1 else 0
  let trendStrength := m1.trendStrength.getD 0.5
  let recent5 := if 5 ≤ total then studentData.drop (total - 5) else studentData
  let recent10 := if 10 ≤ total then studentData.drop (total - 10) else studentData
  let recent5Rate := if 0 < recent5.length then
    (presentCountR recent5 : ℚ) / (recent5.length : ℚ) * 100 else 0
  let recent10Rate := if 0 < recent10.length then
    (presentCountR recent10 : ℚ) / (recent10.length : ℚ) * 100 else 0
  let trendSlope := if 10 ≤ total then
    (let firstHalf := studentData.take (total / 2)
     let secondHalf := studentData.drop (total / 2)
     let firstRate := (presentCountR firstHalf : ℚ) / (firstHalf.length : ℚ) * 100
     let secondRate := (presentCountR secondHalf : ℚ) / (secondHalf.length : ℚ) * 100
     (secondRate - firstRate) / ((total : ℚ) / 2))
    else 0
  let trendAcceleration := if 15 ≤ total then
    (let third := total / 3
     let firstThird := studentData.take third
     let secondThird := (studentData.drop third).take third
     let thirdThird := studentData.drop (2 * third)
     let firstRate := (presentCountR firstThird : ℚ) / (firstThird.length : ℚ) * 100
     let secondRate := (presentCountR secondThird : ℚ) / (secondThird.length : ℚ) * 100
     let thirdRate := (presentCountR thirdThird : ℚ) / (thirdThird.length : ℚ) * 100
     (thirdRate - secondRate) / (third : ℚ) - (secondRate - firstRate) / (third : ℚ))
    else 0
  let recentVsOverallDiff := recent5Rate - currentAttendance
  -- Category 3: pattern (lines 176-224)
  let consStr := m3.consistency.getD "moderately_irregular"
  let consistencyScore : ℚ := if consStr = "regular" then 1
    else if consStr = "moderately_irregular" then 0.5
    else if consStr = "highly_irregular" then 0 else 0.5
  let consecutiveAbsencesMax := m3.maxConsecutiveAbsences.getD 0
  let consecutiveAbsencesAvg := m3.avgConsecutiveAbsences.getD 0
  let absenceClusteringScore := m3.clusteringScore.getD 0.5
  let attendanceRegularity := if attendanceVariance < 100 then 1 - attendanceVariance / 100 else 0
  let absenceFrequency := if 0 < total then (absentCount : ℚ) / (total : ℚ) else 0
  let attendanceStability := if 10 ≤ total then
    (let rollingRates := (List.range (total - 4)).map
      (fun i => (presentCountR ((studentData.drop i).take 5) : ℚ) / 5)
     if rollingRates ≠ [] then 1 - min 1 (sq (popVarQ rollingRates) * 2) else 0.5)
    else 0.5
  -- Category 4: engagement (lines 226-290)
  let attStr := m4.attentiveness.getD "moderately_attentive"
  let attentivenessLevel : ℚ := if attStr = "actively_attentive" then 1
    else if attStr = "moderately_attentive" then 0.5
    else if attStr = "passively_attentive" then 0 else 0.5
  let averageAttentivenessScore := m4.averageAttentivenessScore.getD 2.0
  let positiveEmotionRatio := m4.positiveEmotionRatio.getD 0.3
  let engagementTrend := if 10 ≤ total then
    (let firstHalfAtt := (studentData.take (total / 2)).map attScoreR
     let secondHalfAtt := (studentData.drop (total / 2)).map attScoreR
     if firstHalfAtt ≠ [] ∧ secondHalfAtt ≠ [] then
       (meanQ secondHalfAtt - meanQ firstHalfAtt) / 3 else 0)
    else 0
  let attentivenessConsistency := if 5 ≤ total then
    (let attScores := studentData.map attScoreR
     if attScores ≠ [] then
       (let attStd := sq (popVarQ attScores)
        let attMean := meanQ attScores
        if 0 < attMean then 1 - min 1 (attStd / attMean) else 0.5)
     else 0.5)
    else 0.5
  -- Category 5: temporal (lines 292-335)
  let sessionsRemaining : ℤ := max 0 (planned - (total : ℤ))
  let semesterProgress := if 0 < planned then min 1 ((total : ℚ) / (planned : ℚ)) else 0
  let weeksSinceEnrollment := match studentData with
    | [] => 0
    | r :: _ => match parseDate r.sessionDate with
      | some d => ((nowDays - d : ℤ) : ℚ) / 7
      | none => (total : ℚ) / 2
  let timePressure := if currentAttendance < 75 then
    (if 0 < planned then 1 - (sessionsRemaining : ℚ) / (planned : ℚ) else 1) else 0
  let semesterPhase : ℚ := if semesterProgress < 0.33 then 0
    else if semesterProgress < 0.67 then 0.5 else 1
  -- Category 6: recovery (lines 337-417)
  let bestPossibleAttendance := if 0 < planned then
    (((presentCount : ℤ) + sessionsRemaining : ℤ) : ℚ) / (planned : ℚ) * 100 else 0
  let recoveryPossible : ℚ := if 75 ≤ bestPossibleAttendance then 1 else 0
  let sessionsNeededFor75 : ℤ := max 0 ⌈(0.75 : ℚ) * (planned : ℚ) - (presentCount : ℚ)⌉
  let recoveryDifficulty : ℚ :=
    if recoveryPossible = 0 then -1
    else if sessionsNeededFor75 = 0 then 1
    else if (sessionsNeededFor75 : ℚ) ≤ (sessionsRemaining : ℚ) * 0.3 then 1
    else if (sessionsNeededFor75 : ℚ) ≤ (sessionsRemaining : ℚ) * 0.7 then 0.5
    else if sessionsNeededFor75 ≤ sessionsRemaining then 0.2
    else -1
  let recoveryMargin : ℚ :=
    if recoveryPossible ≠ 0 ∧ sessionsNeededFor75 = 0 then (currentAttendance - 75) / 100
    else if recoveryPossible ≠ 0 ∧ (sessionsNeededFor75 : ℚ) ≤ (sessionsRemaining : ℚ) * 0.3 then 0.3
    else if recoveryPossible ≠ 0 ∧ (sessionsNeededFor75 : ℚ) ≤ (sessionsRemaining : ℚ) * 0.7 then 0.1
    else if recoveryPossible ≠ 0 then 0
    else 0
  let failureCertainty : ℚ :=
    if recoveryPossible = 0 then 1
    else if 75 ≤ currentAttendance then
      (let buffer := currentAttendance - 75
       let maxAbsencesAllowed := intTrunc (buffer / 100 * (sessionsRemaining : ℚ))
       if (sessionsRemaining : ℚ) * 0.5 ≤ (maxAbsencesAllowed : ℚ) then 0
       else if (sessionsRemaining : ℚ) * 0.3 ≤ (maxAbsencesAllowed : ℚ) then 0.1
       else 0.3)
    else
      if sessionsRemaining < sessionsNeededFor75 then 1
      else if (sessionsRemaining : ℚ) * 0.9 < (sessionsNeededFor75 : ℚ) then 0.8
      else if (sessionsRemaining : ℚ) * 0.7 < (sessionsNeededFor75 : ℚ) then 0.6
      else if (sessionsRemaining : ℚ) * 0.5 < (sessionsNeededFor75 : ℚ) then 0.4
      else 0.2
  -- Category 7: class context (lines 419-529)
  let classAverageAttendance := match classData with
    | some cd =>
      (let atts := cd.students.map (fun s => pctR s.records)
       if atts ≠ [] then meanQ atts else 75)
    | none => 75
  let studentVsClassDifference := currentAttendance - classAverageAttendance
  let absentDates := (studentData.filter (fun r => r.status == "absent")).map
    (fun r => r.sessionDate)
  let classAttendanceOnAbsentDays := match classData with
    | some cd =>
      if absentDates ≠ [] then
        (let vals := absentDates.filterMap (fun date =>
          match cd.sessions.lookup date with
          | some info => if 0 < info.totalStudents then
              some ((info.presentCount : ℚ) / (info.totalStudents : ℚ) * 100) else none
          | none => none)
         if vals ≠ [] then meanQ vals else 75)
      else 75
    | none => 75
  -- the source sorts all_attendances before the strictly-below count; the
  -- sort does not change the count and is not repeated here
  let peerRankPercentile := match classData with
    | some cd =>
      (let atts := cd.students.map (fun s => pctR s.records)
       let rank := (atts.filter (fun a => decide (a < currentAttendance))).length
       if atts ≠ [] then (rank : ℚ) / (atts.length : ℚ) * 100 else 50)
    | none => 50
  let belowClassAverage : ℚ := if currentAttendance < classAverageAttendance then 1 else 0
  let relativePerformanceTrend := match classData with
    | some cd =>
      if 10 ≤ total then
        (let firstHalf := studentData.take (total / 2)
         let secondHalf := studentData.drop (total / 2)
         let studentFirstRate := (presentCountR firstHalf : ℚ) / (firstHalf.length : ℚ) * 100
         let studentSecondRate := (presentCountR secondHalf : ℚ) / (secondHalf.length : ℚ) * 100
         let studentTrendValue := studentSecondRate - studentFirstRate
         let classRates := cd.students.filterMap (fun s =>
           if 10 ≤ s.records.length then
             some ((presentCountR (s.records.take (s.records.length / 2)) : ℚ) /
                 ((s.records.take (s.records.length / 2)).length : ℚ) * 100,
               (presentCountR (s.records.drop (s.records.length / 2)) : ℚ) /
                 ((s.records.drop (s.records.length / 2)).length : ℚ) * 100)
           else none)
         if classRates.map Prod.fst ≠ [] ∧ classRates.map Prod.snd ≠ [] then
           -- class_trend_value (np.mean second - np.mean first) is computed
           -- by the source but not consulted by the conditional below
           if 0 < studentTrendValue ∧ 0 < studentVsClassDifference then 1
           else if 0 < studentTrendValue then 0.5
           else if studentTrendValue < 0 ∧ studentVsClassDifference < 0 then -1
           else if studentTrendValue < 0 then -0.5
           else 0
         else 0)
      else 0
    | none => 0
  [currentAttendance, (total : ℚ), (presentCount : ℚ), (absentCount : ℚ),
    (excusedAbsenceCount : ℚ), (unexcusedAbsenceCount : ℚ), attendanceVariance] ++
  [trendDirection, trendStrength, recent5Rate, recent10Rate, trendSlope,
    trendAcceleration, recentVsOverallDiff] ++
  [consistencyScore, consecutiveAbsencesMax, consecutiveAbsencesAvg,
    absenceClusteringScore, attendanceRegularity, absenceFrequency, attendanceStability] ++
  [attentivenessLevel, averageAttentivenessScore, positiveEmotionRatio,
    engagementTrend, attentivenessConsistency] ++
  [semesterProgress, (sessionsRemaining : ℚ), weeksSinceEnrollment, timePressure,
    semesterPhase] ++
  [(planned : ℚ), (sessionsRemaining : ℚ), bestPossibleAttendance, recoveryPossible,
    (sessionsNeededFor75 : ℚ), recoveryDifficulty, recoveryMargin, failureCertainty] ++
  [classAverageAttendance, studentVsClassDifference, classAttendanceOnAbsentDays,
    peerRankPercentile, belowClassAverage, relativePerformanceTrend]

end Risk

/-- C1: for every input (history, upstream stage results, class snapshot,
planned-session count, and numeric primitives), the feature vector built by
`extract_features` has exactly 45 entries, laid out as the seven fixed §4.4
blocks of 7+7+7+5+5+8+6 features in that order. -/
theorem feature_vector_length (sq : ℚ → ℚ) (nowDays : ℤ) (parseDate : ℕ → Option ℤ)
    (studentData : List Risk.SRecord) (m1 : Risk.M1Result) (m3 : Risk.M3Result)
    (m4 : Risk.M4Result) (classData : Option Risk.ClassData) (planned : ℤ) :
    (Risk.extract_features sq nowDays parseDate studentData m1 m3 m4
      classData planned).length = 45 :=
  rfl

/-- Five-session demo history for the time-dependence counterexample. -/
def riskDemoData : List Risk.SRecord :=
  [⟨"present", none, 1, none, none⟩, ⟨"present", none, 2, none, none⟩,
   ⟨"present", none, 3, none, none⟩, ⟨"present", none, 4, none, none⟩,
   ⟨"present", none, 5, none, none⟩]

/-- Counterexample to C9: `extract_features` reads the wall clock
(`datetime.now()`, model2 line 306).  With the same records, stage results
and class snapshot, two runs whose clock readings are 70 days apart produce
different feature vectors (entry 28, `weeks_since_enrollment`, is 0 in one
and 10 in the other), so the risk stage is not re-run-identical. -/
theorem extract_features_time_dependent :
    Risk.extract_features (fun _ => 0) 0 (fun _ => some 0) riskDemoData
        ⟨none, none⟩ ⟨none, none, none, none⟩ ⟨none, none, none⟩ none 80 ≠
      Risk.extract_features (fun _ => 0) 70 (fun _ => some 0) riskDemoData
        ⟨none, none⟩ ⟨none, none, none, none⟩ ⟨none, none, none⟩ none 80 := by
  intro h
  have h28 := congrArg (fun l => l.getD 28 0) h
  have e1 : (Risk.extract_features (fun _ => 0) 0 (fun _ => some 0) riskDemoData
      ⟨none, none⟩ ⟨none, none, none, none⟩ ⟨none, none, none⟩ none 80).getD 28 0 =
      ((0 - 0 : ℤ) : ℚ) / 7 := rfl
  have e2 : (Risk.extract_features (fun _ => 0) 70 (fun _ => some 0) riskDemoData
      ⟨none, none⟩ ⟨none, none, none, none⟩ ⟨none, none, none⟩ none 80).getD 28 0 =
      ((70 - 0 : ℤ) : ℚ) / 7 := rfl
  simp only [e1, e2] at h28
  norm_num at h28

/-- C9 (amended): the analyzer stages are pure functions of their inputs,
but the risk stage's feature extraction also reads the current wall-clock
time; that dependence is confined to entry 28 (`weeks_since_enrollment`):
two runs over identical inputs at different clock readings agree on entries
0-27 and on entries 29-44 of the feature vector. -/
theorem extract_features_time_confined (sq : ℚ → ℚ) (nowA nowB : ℤ)
    (parseDate : ℕ → Option ℤ) (studentData : List Risk.SRecord) (m1 : Risk.M1Result)
    (m3 : Risk.M3Result) (m4 : Risk.M4Result) (classData : Option Risk.ClassData)
    (planned : ℤ) :
    (Risk.extract_features sq nowA parseDate studentData m1 m3 m4
        classData planned).take 28 =
      (Risk.extract_features sq nowB parseDate studentData m1 m3 m4
        classData planned).take 28 ∧
    (Risk.extract_features sq nowA parseDate studentData m1 m3 m4
        classData planned).drop 29 =
      (Risk.extract_features sq nowB parseDate studentData m1 m3 m4
        classData planned).drop 29 :=
  ⟨rfl, rfl⟩

namespace Risk

/-- Output of `predict_risk` (model2 lines 538-570), an opaque classifier
call; `analyze_risk` takes the classifier as a function parameter. -/
structure PredictOut where
  risk : String
  probability : List (String × ℚ)
  confidence : ℚ
deriving Repr, DecidableEq

/-- The recommendation strings of `generate_recommendations` (model2 lines
573-627), one constructor per literal message, carrying the interpolated
values. -/
inductive RecMsg
  | criticalImpossible
  | maxPossibleIs (bestPossible : ℚ)
  | belowThreshold
  | needAttend (needed remaining : ℚ)
  | veryDifficult
  | challenging
  | achievable
  | aboveThreshold (current : ℚ)
  | canAffordToMiss (maxAbsences : ℤ)
deriving Repr, DecidableEq

/-- The `action_plan` strings of `generate_recommendations`, one constructor
per literal message. -/
inductive PlanMsg
  | interventionRequired
  | mustAttend (needed : ℚ)
  | attendOutOf (needed remaining : ℚ)
  | attendMore (needed : ℚ)
  | maintainBuffer (buffer : ℚ)
deriving Repr, DecidableEq

/-- Result of `generate_recommendations`. -/
structure RecOutput where
  recommendations : List RecMsg
  actionPlan : PlanMsg
deriving Repr, DecidableEq

/-- `generate_recommendations` (model2 lines 573-627), reading its inputs
from the feature vector exactly at the indices the source uses:
`features[0]`, and `features[24]`-`features[27]` as
remaining/best/recovery/needed.  (In the 45-entry layout those four indices
hold `engagement_trend`, `attentiveness_consistency`, `semester_progress`
and the temporal `sessions_remaining`.)  The unused `risk_result` argument
is kept as in the source; list indexing is total here (`getD`), callers
always pass the 45-entry vector. -/
def generate_recommendations (features : List ℚ) (_riskResult : PredictOut) : RecOutput :=
  let currentAttendance := features.getD 0 0
  let recoveryPossible := features.getD 26 0
  let sessionsNeeded := features.getD 27 0
  let sessionsRemaining := features.getD 24 0
  let bestPossible := features.getD 25 0
  if recoveryPossible = 0 then
    { recommendations := [.criticalImpossible, .maxPossibleIs bestPossible],
      actionPlan := .interventionRequired }
  else if currentAttendance < 75 then
    let requiredPercentage := if 0 < sessionsRemaining then
      sessionsNeeded / sessionsRemaining * 100 else 100
    if 90 ≤ requiredPercentage then
      { recommendations := [.belowThreshold, .needAttend sessionsNeeded sessionsRemaining,
          .veryDifficult],
        actionPlan := .mustAttend sessionsNeeded }
    else if 70 ≤ requiredPercentage then
      { recommendations := [.belowThreshold, .needAttend sessionsNeeded sessionsRemaining,
          .challenging],
        actionPlan := .attendOutOf sessionsNeeded sessionsRemaining }
    else
      { recommendations := [.belowThreshold, .needAttend sessionsNeeded sessionsRemaining,
          .achievable],
        actionPlan := .attendMore sessionsNeeded }
  else
    let buffer := currentAttendance - 75
    let maxAbsences := intTrunc (buffer / 100 * sessionsRemaining)
    { recommendations := [.aboveThreshold currentAttendance, .canAffordToMiss maxAbsences],
      actionPlan := .maintainBuffer buffer }

/-- Output of `analyze_risk` (model2 lines 630-756).  Keys the source sets
only on some paths are `Option` fields.  The source's dynamically typed
`confidence` is a number on the analyzed path and the string `'none'` on the
early path.  The constant recommendation/message string lists of the
`no_data`/`early_stage` paths are display-only and outside the embedding
(`recommendations := none` there), as is `model_accuracy`. -/
structure RiskOutput where
  status : String
  risk : Option String
  probability : Option (List (String × ℚ))
  confidence : Option (ℚ ⊕ String)
  currentAttendance : Option ℚ
  sessionsAnalyzed : ℕ
  sessionsRemaining : ℤ
  bestPossibleAttendance : Option ℚ
  recoveryPossible : Bool
  sessionsNeededTo75 : Option ℤ
  recommendations : Option RecOutput
  featuresUsed : Option ℕ
deriving Repr, DecidableEq

/-- `analyze_risk` (model2 lines 630-756): no-data and early-stage
short-circuits, then feature extraction, classifier call and the
recommendation layer; the analyzed result's recovery fields are read back
from the vector at indices 24-27. -/
def analyze_risk (sq : ℚ → ℚ) (nowDays : ℤ) (parseDate : ℕ → Option ℤ)
    (predict : List ℚ → PredictOut) (studentData : List SRecord) (m1 : M1Result)
    (m3 : M3Result) (m4 : M4Result) (classData : Option ClassData)
    (planned : ℤ) : RiskOutput :=
  if studentData.length = 0 then
    { status := "no_data", risk := none, probability := none, confidence := none,
      currentAttendance := none, sessionsAnalyzed := 0, sessionsRemaining := planned,
      bestPossibleAttendance := none, recoveryPossible := true,
      sessionsNeededTo75 := none, recommendations := none, featuresUsed := none }
  else if studentData.length < 5 then
    let total := studentData.length
    let presentCount := presentCountR studentData
    let currentAttendance := if 0 < total then (presentCount : ℚ) / (total : ℚ) * 100 else 0
    let sessionsRemaining : ℤ := planned - (total : ℤ)
    -- line 691 divides by `planned` without a guard (Python would raise on
    -- planned = 0; in ℚ the quotient is 0 there)
    let bestPossible := ((presentCount : ℤ) + sessionsRemaining : ℤ) / (planned : ℚ) * 100
    let earlyRisk := if 80 ≤ currentAttendance then "low"
      else if 60 ≤ currentAttendance then "moderate" else "high"
    { status := "early_stage", risk := some earlyRisk, probability := none,
      confidence := some (Sum.inr "none"), currentAttendance := some currentAttendance,
      sessionsAnalyzed := total, sessionsRemaining := sessionsRemaining,
      bestPossibleAttendance := some bestPossible,
      recoveryPossible := decide ((75 : ℚ) ≤ bestPossible),
      sessionsNeededTo75 := none, recommendations := none, featuresUsed := none }
  else
    let features := extract_features sq nowDays parseDate studentData m1 m3 m4
      classData planned
    let riskResult := predict features
    let recs := generate_recommendations features riskResult
    { status := "analyzed", risk := some riskResult.risk,
      probability := some riskResult.probability,
      confidence := some (Sum.inl riskResult.confidence),
      currentAttendance := some (features.getD 0 0),
      sessionsAnalyzed := studentData.length,
      sessionsRemaining := intTrunc (features.getD 24 0),
      bestPossibleAttendance := some (features.getD 25 0),
      recoveryPossible := features.getD 26 0 == 1,
      sessionsNeededTo75 := some (intTrunc (features.getD 27 0)),
      recommendations := some recs,
      featuresUsed := some features.length }

/-- The classifier artifact `{model, feature_names, test_accuracy}` as far
as the startup code reads it (the opaque model object is the `predict`
parameter elsewhere). -/
structure ModelArtifact where
  featureNames : List String
  testAccuracy : ℚ
deriving Repr, DecidableEq

/-- The extractor's 45 feature names
(`train_risk_model_v3_correct.py` lines 328-343). -/
def extractorFeatureNames : List String :=
  ["current_attendance_percentage", "total_sessions_so_far", "present_count", "absent_count",
   "excused_absence_count", "unexcused_absence_count", "attendance_variance",
   "trend_direction", "trend_strength", "recent_5_attendance_rate", "recent_10_attendance_rate",
   "trend_slope", "trend_acceleration", "recent_vs_overall_diff",
   "consistency_score", "consecutive_absences_max", "consecutive_absences_avg",
   "absence_clustering_score", "attendance_regularity", "absence_frequency",
   "attendance_stability",
   "attentiveness_level", "average_attentiveness_score", "positive_emotion_ratio",
   "engagement_trend", "attentiveness_consistency",
   "semester_progress", "sessions_remaining", "weeks_since_enrollment", "time_pressure",
   "semester_phase",
   "total_sessions_planned", "sessions_remaining_duplicate", "best_possible_attendance",
   "recovery_possible", "sessions_needed_to_reach_75", "recovery_difficulty",
   "recovery_margin", "failure_certainty",
   "class_average_attendance", "student_vs_class_difference", "class_attendance_on_absent_days",
   "peer_rank_percentile", "below_class_average", "relative_performance_trend"]

/-- The module-level artifact load (model2 lines 24-37): a missing file
(`FileNotFoundError`) prints an error and exits the process; a present
artifact is unpickled and accepted unconditionally — its `feature_names`
manifest is stored but never compared with anything. -/
def loadModelArtifact (file : Option ModelArtifact) : Except Unit ModelArtifact :=
  match file with
  | none => .error ()
  | some d => .ok d

end Risk

/-- Ten present sessions (no face data), the C2 failing input. -/
def riskBugData10 : List Risk.SRecord :=
  [⟨"present", none, 1, none, none⟩, ⟨"present", none, 2, none, none⟩,
   ⟨"present", none, 3, none, none⟩, ⟨"present", none, 4, none, none⟩,
   ⟨"present", none, 5, none, none⟩, ⟨"present", none, 6, none, none⟩,
   ⟨"present", none, 7, none, none⟩, ⟨"present", none, 8, none, none⟩,
   ⟨"present", none, 9, none, none⟩, ⟨"present", none, 10, none, none⟩]

/-- A stub classifier; the fields compared in the bug theorems do not
depend on it. -/
def predictStub : List ℚ → Risk.PredictOut := fun _ => ⟨"low", [], 1⟩

set_option maxHeartbeats 1000000 in
/-- C2 evaluated at the failing input (10 present sessions of 80 planned):
the analyzed result's recovery fields are read from feature indices 24-27,
which in the 45-entry layout hold engagement/temporal features, not the
recovery block at indices 33-35.  The code returns best-possible 1 (the
attentiveness-consistency feature), recovery-possible false (semester
progress 1/8 ≠ 1), sessions-needed 70 and sessions-remaining 0, while the
claimed formulas give 100, true, 50 and 70. -/
theorem analyze_risk_recovery_fields_bug :
    (Risk.analyze_risk (fun _ => 0) 0 (fun _ => none) predictStub riskBugData10
      ⟨none, none⟩ ⟨none, none, none, none⟩ ⟨none, none, none⟩ none 80).status =
        "analyzed" ∧
    (Risk.analyze_risk (fun _ => 0) 0 (fun _ => none) predictStub riskBugData10
      ⟨none, none⟩ ⟨none, none, none, none⟩ ⟨none, none, none⟩ none 80).bestPossibleAttendance =
        some 1 ∧
    (((10 : ℚ) + 70) / 80 * 100 = 100 ∧ (1 : ℚ) ≠ 100) ∧
    (Risk.analyze_risk (fun _ => 0) 0 (fun _ => none) predictStub riskBugData10
      ⟨none, none⟩ ⟨none, none, none, none⟩ ⟨none, none, none⟩ none 80).recoveryPossible =
        false ∧
    (75 : ℚ) ≤ ((10 : ℚ) + 70) / 80 * 100 ∧
    (Risk.analyze_risk (fun _ => 0) 0 (fun _ => none) predictStub riskBugData10
      ⟨none, none⟩ ⟨none, none, none, none⟩ ⟨none, none, none⟩ none 80).sessionsNeededTo75 =
        some 70 ∧
    (max 0 ⌈(0.75 : ℚ) * 80 - 10⌉ = (50 : ℤ) ∧ (70 : ℤ) ≠ 50) ∧
    (Risk.analyze_risk (fun _ => 0) 0 (fun _ => none) predictStub riskBugData10
      ⟨none, none⟩ ⟨none, none, none, none⟩ ⟨none, none, none⟩ none 80).sessionsRemaining =
        0 ∧
    (max 0 ((80 : ℤ) - 10) = 70 ∧ (0 : ℤ) ≠ 70) := by
  refine ⟨?_, ?_, by norm_num, ?_, by norm_num, ?_, ⟨by norm_num [Int.ceil_intCast], by norm_num⟩,
    ?_, by norm_num⟩ <;>
    (simp +decide [Risk.analyze_risk, Risk.extract_features, Risk.presentCountR, Risk.pctR,
      Risk.intTrunc, Risk.attScoreR, Risk.generate_recommendations, predictStub,
      riskBugData10, popVarQ, meanQ]
     try norm_num)

/-- Twenty sessions, 18 present and 2 absent (90% attendance, no face
data), the C3 failing input. -/
def riskBugData20 : List Risk.SRecord :=
  [⟨"present", none, 1, none, none⟩, ⟨"present", none, 2, none, none⟩,
   ⟨"present", none, 3, none, none⟩, ⟨"present", none, 4, none, none⟩,
   ⟨"present", none, 5, none, none⟩, ⟨"present", none, 6, none, none⟩,
   ⟨"present", none, 7, none, none⟩, ⟨"present", none, 8, none, none⟩,
   ⟨"present", none, 9, none, none⟩, ⟨"absent", none, 10, none, none⟩,
   ⟨"present", none, 11, none, none⟩, ⟨"present", none, 12, none, none⟩,
   ⟨"present", none, 13, none, none⟩, ⟨"present", none, 14, none, none⟩,
   ⟨"present", none, 15, none, none⟩, ⟨"present", none, 16, none, none⟩,
   ⟨"present", none, 17, none, none⟩, ⟨"present", none, 18, none, none⟩,
   ⟨"present", none, 19, none, none⟩, ⟨"absent", none, 20, none, none⟩]

set_option maxHeartbeats 1000000 in
/-- C3 evaluated at the failing input (20 sessions at 90% of 80 planned):
the recommendation layer reads its inputs at the stale 34-entry indices.
The true recovery feature (index 34) is 1 and the claimed affordable-absence
buffer is `floor(0.15 × 60) = 9`, but the code multiplies the buffer by
`features[24]` (`engagement_trend`, here 0) instead of the 60 remaining
sessions, so the above-75 branch reports an affordable-absence count of 0,
not a positive buffer. -/
theorem recommendations_stale_indices_bug :
    (Risk.extract_features (fun _ => 0) 0 (fun _ => none) riskBugData20
      ⟨none, none⟩ ⟨none, none, none, none⟩ ⟨none, none, none⟩ none 80).getD 34 0 = 1 ∧
    (Risk.extract_features (fun _ => 0) 0 (fun _ => none) riskBugData20
      ⟨none, none⟩ ⟨none, none, none, none⟩ ⟨none, none, none⟩ none 80).getD 26 0 = 1/4 ∧
    (Risk.extract_features (fun _ => 0) 0 (fun _ => none) riskBugData20
      ⟨none, none⟩ ⟨none, none, none, none⟩ ⟨none, none, none⟩ none 80).getD 24 0 = 0 ∧
    Risk.generate_recommendations
      (Risk.extract_features (fun _ => 0) 0 (fun _ => none) riskBugData20
        ⟨none, none⟩ ⟨none, none, none, none⟩ ⟨none, none, none⟩ none 80) (predictStub []) =
      { recommendations := [.aboveThreshold 90, .canAffordToMiss 0],
        actionPlan := .maintainBuffer 15 } ∧
    (⌊((90 : ℚ) - 75) / 100 * 60⌋ = (9 : ℤ) ∧ (0 : ℤ) ≠ 9) := by
  refine ⟨?_, ?_, ?_, ?_, by norm_num⟩ <;>
    (simp +decide [Risk.generate_recommendations, Risk.extract_features, Risk.presentCountR,
      Risk.pctR, Risk.intTrunc, Risk.attScoreR, predictStub, riskBugData20, popVarQ, meanQ]
     try norm_num)

/-- Counterexample to C4: the startup load accepts an artifact whose
feature-name manifest disagrees with the extractor's 45-name list — the
manifest is never validated, so a schema mismatch does not prevent the
service from serving predictions. -/
theorem startup_accepts_mismatched_manifest :
    Risk.loadModelArtifact (some ⟨["bogus"], 0⟩) = .ok ⟨["bogus"], 0⟩ ∧
    ["bogus"] ≠ Risk.extractorFeatureNames ∧
    Risk.extractorFeatureNames.length = 45 :=
  ⟨rfl, by decide, by decide⟩

/-- C4 (amended): the startup load fails fatally (process exit) exactly when
the classifier artifact file is missing; a present artifact is accepted
unconditionally, its feature-name manifest included. -/
theorem startup_fails_iff_artifact_missing (file : Option Risk.ModelArtifact) :
    Risk.loadModelArtifact file = .error () ↔ file = none := by
  cases file <;> simp [Risk.loadModelArtifact]
